import Mathlib

/-!
Verification development for the gum build-tool launcher (gradle-like and
maven-like resolver families).

Shallow embedding conventions:
* Absolute filesystem paths are represented both as component lists
  (`List String`, root = `[]`) for the upward directory walks, and as rendered
  strings (`renderPath`) wherever the Go code stores a path in a string field.
  `filepath.Join dir ".."` on a clean absolute path is `List.dropLast`;
  `filepath.Join dir name` is `dir ++ [name]`; `filepath.Dir`/`filepath.Base`
  are `dropLast`/`getLast` after parsing.
* The collaborator interface (FileExists, GetWorkingDir, GetPaths, IsWindows,
  IsExplicit, IsQuiet, Exit, configuration reading) is a `Context` record of
  pure data and functions; `Exit` calls are collected in the result instead of
  terminating.
* Printing is modelled as data: the banner and the debug dump are returned as
  lists of strings. The source wraps path values in single-quote characters in
  the banner; the embedding leaves those quote characters out.
* `filepath.Abs` is modelled as the identity (`absPath`): the embedding only
  feeds it values that are already clean absolute paths.
-/

namespace Gum

/-- Splits a character list at slash characters (accumulator holds the current
component reversed). Together with `parsePath` this is a computable model of
splitting a path string into components. -/
def splitSlash : List Char → List Char → List String
  | [], acc => [String.mk acc.reverse]
  | c :: cs, acc =>
    if c = '/' then String.mk acc.reverse :: splitSlash cs []
    else splitSlash cs (c :: acc)

/-- Parses an absolute path string into its non-empty components. -/
def parsePath (s : String) : List String :=
  (splitSlash s.data []).filter (fun c => !c.isEmpty)

/-- Joins components with slashes (no leading slash). -/
def joinComps : List String → String
  | [] => ""
  | [c] => c
  | c :: cs => c ++ "/" ++ joinComps cs

/-- Renders a component list as an absolute path string; `[]` renders as the
filesystem root. -/
def renderPath (cs : List String) : String :=
  "/" ++ joinComps cs

/-- Models `filepath.Dir` on a clean absolute path string. -/
def dirName (s : String) : String :=
  renderPath ((parsePath s).dropLast)

/-- Models `filepath.Base` on a clean absolute directory given as components
(the Go function returns the final element, and the slash for the root). -/
def baseName (dir : List String) : String :=
  dir.getLast?.getD "/"

/-- Models `filepath.Abs`. The embedding only applies it to values that are
already clean absolute paths, on which the Go function is the identity. -/
def absPath (s : String) : String := s

/-- Per-tool configuration section that matters to the core: the task-alias
replacement toggle and the alias mapping table (alias token to one-or-more
replacement tokens). Modelled from the spec: the configuration file reading
itself is an external collaborator. -/
structure GradleSection where
  replace : Bool := true
  mappings : List (String × List String) := []
deriving Repr, DecidableEq

/-- General configuration flags consumed by the core. -/
structure GeneralSection where
  quiet : Bool := false
  debug : Bool := false
deriving Repr, DecidableEq

/-- Configuration supplied by the external collaborator. -/
structure Config where
  general : GeneralSection := {}
  gradle : GradleSection := {}
deriving Repr, DecidableEq

/-- Modelled from the spec: setter used when the -gd meta-flag is present
(enable diagnostic dump); the setter itself is defined outside src/. -/
def setDebug (cfg : Config) (b : Bool) : Config :=
  { cfg with general := { cfg.general with debug := b } }

/-- Modelled from the spec: setter used when the -gr meta-flag is present
(toggle task-alias rewriting); defined outside src/. -/
def setReplace (cfg : Config) (b : Bool) : Config :=
  { cfg with gradle := { cfg.gradle with replace := b } }

/-- Modelled from the spec: setter mirroring config.setQuiet, defined outside
src/. -/
def setQuiet (cfg : Config) (b : Bool) : Config :=
  { cfg with general := { cfg.general with quiet := b } }

/-- The collaborator interface of the spec (PathProbe, working directory,
PATH-like directories, OS and mode flags, configuration reading). FileExists
is a pure predicate on component paths; GetPaths entries are directories as
component lists. -/
structure Context where
  workingDir : List String
  fileExists : List String → Bool
  paths : List (List String)
  windows : Bool
  explicitMode : Bool
  quiet : Bool
  readConfig : String → Config

/-- Modelled from the spec: GrabFlag (defined outside src/) extracts a boolean
meta-flag from the raw argument list, removing exactly the matched flag tokens
and leaving all other tokens in their original relative order (the spec
requires extraction to be idempotent). Returns whether the flag was present
together with the remaining arguments. -/
def GrabFlag (flag : String) (args : List String) : Bool × List String :=
  (args.contains flag, args.filter (fun a => a != flag))

/-- Modelled from the spec: findFlag (defined outside src/) reports whether a
flag token is present without consuming it. -/
def findFlag (flag : String) (args : List String) : Bool :=
  args.contains flag

/-- Modelled from the spec: findFlagValue (defined outside src/) finds a flag
that is given with its value as the following token; returns the value of the
first occurrence. -/
def findFlagValue (flag : String) : List String → Bool × String
  | a :: b :: rest =>
    if a = flag then (true, b) else findFlagValue flag (b :: rest)
  | _ => (false, "")

/-- Modelled from the spec: replaceArgs (defined outside src/) substitutes in
place each argument that matches a key of the alias mapping table by its
replacement tokens, preserving the relative order of all other arguments;
unmatched tokens pass through verbatim. The source passes one extra positional
parameter whose definition is outside src/ and which the spec does not
describe; it is not modelled. -/
def replaceArgs (args : List String) (mappings : List (String × List String)) :
    List String :=
  (args.map (fun a =>
    match mappings.lookup a with
    | some r => r
    | none => [a])).flatten

/-- The task-name replacement layer (source: gradle resolver,
replaceGradleTasks): rewrites the arguments through the alias table when
rewriting is enabled, otherwise returns them unchanged. -/
def replaceGradleTasks (config : Config) (args : List String) : List String :=
  if config.gradle.replace = true then replaceArgs args config.gradle.mappings
  else args

/-- The generic upward directory walk of the source, with explicit fuel (the
walk is bounded by the directory depth; the fuel is always instantiated with
the depth of the starting directory, see `upwardSearch`). Stops with no result
at the filesystem root (the parent of the root is itself, which for component
lists means the empty list); otherwise probes the candidate filenames for the
current directory in order and returns the absolutized first hit, else
recurses into the parent. -/
def upwardSearchAux (ctx : Context) (cands : List String → List String) :
    Nat → List String → Option String
  | 0, _ => none
  | fuel + 1, dir =>
    if dir = [] then none
    else
      match (cands dir).find? (fun n => ctx.fileExists (dir ++ [n])) with
      | some n => some (renderPath (dir ++ [n]))
      | none => upwardSearchAux ctx cands fuel dir.dropLast

/-- Entry point of the upward walk: the fuel is the starting depth. -/
def upwardSearch (ctx : Context) (cands : List String → List String)
    (dir : List String) : Option String :=
  upwardSearchAux ctx cands dir.length dir

/-- Resolves the gradlew executable name (OS dependent). -/
def resolveGradleWrapperExec (ctx : Context) : String :=
  if ctx.windows = true then "gradlew.bat" else "gradlew"

/-- Resolves the gradle executable name (OS dependent). -/
def resolveGradleExec (ctx : Context) : String :=
  if ctx.windows = true then "gradle.bat" else "gradle"

/-- Finds the gradle wrapper by walking upward from dir (source:
findGradleWrapperExec). -/
def findGradleWrapperExec (ctx : Context) (dir : List String) : Option String :=
  upwardSearch ctx (fun _ => [resolveGradleWrapperExec ctx]) dir

/-- Finds the gradle executable on the PATH-like directories (source:
findGradleExec). -/
def findGradleExec (ctx : Context) : Option String :=
  let gradle := resolveGradleExec ctx
  match ctx.paths.find? (fun p => ctx.fileExists (p ++ [gradle])) with
  | some p => some (renderPath (p ++ [gradle]))
  | none => none

/-- Candidate build-file names probed within one directory by the nearest
gradle build-file search, in priority order. -/
def gradleBuildFileNames (dir : List String) : List String :=
  ["build.gradle", "build.gradle.kts",
   baseName dir ++ ".gradle", baseName dir ++ ".gradle.kts"]

/-- Finds the nearest Gradle build file by walking upward (source:
findGradleBuildFile). -/
def findGradleBuildFile (ctx : Context) (dir : List String) : Option String :=
  upwardSearch ctx gradleBuildFileNames dir

/-- Finds settings.gradle or settings.gradle.kts by walking upward (source:
findGradleSettingsFile). -/
def findGradleSettingsFile (ctx : Context) (dir : List String) : Option String :=
  upwardSearch ctx (fun _ => ["settings.gradle", "settings.gradle.kts"]) dir

/-- The root build file walk with explicit fuel (source: findGradleRootFile).
Probes build.gradle and build.gradle.kts in the current directory; on a miss,
if a non-empty boundary settings file is supplied and the rendered path of the
parent directory is not longer (in characters, mirroring the Go len comparison
of the path strings) than the rendered path of the settings-file directory,
the walk stops with no result; otherwise it recurses into the parent. -/
def findGradleRootFileAux (ctx : Context) (settingsFile : String) :
    Nat → List String → Option String
  | 0, _ => none
  | fuel + 1, dir =>
    if dir = [] then none
    else
      match (["build.gradle", "build.gradle.kts"]).find?
          (fun n => ctx.fileExists (dir ++ [n])) with
      | some n => some (renderPath (dir ++ [n]))
      | none =>
        if 0 < settingsFile.length ∧
            (renderPath dir.dropLast).length ≤ (dirName settingsFile).length then
          none
        else findGradleRootFileAux ctx settingsFile fuel dir.dropLast

/-- Finds the root build file (source: findGradleRootFile); the fuel of the
walk is the starting depth. -/
def findGradleRootFile (ctx : Context) (dir : List String)
    (settingsFile : String) : Option String :=
  findGradleRootFileAux ctx settingsFile dir.length dir

/-- Finds an explicit -p or --project-dir flag value, absolutized (source:
findExplicitProjectDir). -/
def findExplicitProjectDir (args : List String) : Bool × String :=
  let r := findFlagValue "-p" args
  let r := if r.1 = true then r else findFlagValue "--project-dir" args
  if r.1 = true then (true, absPath r.2) else (false, "")

/-- Finds an explicit -b or --build-file flag value, absolutized (source:
findExplicitGradleBuildFile). -/
def findExplicitGradleBuildFile (args : List String) : Bool × String :=
  let r := findFlagValue "-b" args
  let r := if r.1 = true then r else findFlagValue "--build-file" args
  if r.1 = true then (true, absPath r.2) else (false, "")

/-- Finds an explicit -c or --settings-file flag value, absolutized (source:
findExplicitGradleSettingsFile). -/
def findExplicitGradleSettingsFile (args : List String) : Bool × String :=
  let r := findFlagValue "-c" args
  let r := if r.1 = true then r else findFlagValue "--settings-file" args
  if r.1 = true then (true, absPath r.2) else (false, "")

/-- Resolves the wrapper executable search start: the explicit project
directory when the -p or --project-dir flag is present, the working directory
otherwise (source: resolveGradleWrapperExecutable). The flag value, a path
string, is parsed into components for the walk. -/
def resolveGradleWrapperExecutable (ctx : Context) (args : List String) :
    Option String :=
  let pd := findExplicitProjectDir args
  if pd.1 = true then findGradleWrapperExec ctx (parsePath pd.2)
  else findGradleWrapperExec ctx ctx.workingDir

/-- An executable Gradle command, the invocation plan of the gradle-like
resolver (source: GradleCommand). The embedded context of the source is not
carried: it is only used for printing. -/
structure GradleCommand where
  config : Config
  executable : String
  args : List String
  explicitProjectDir : String := ""
  buildFile : String := ""
  explicitBuildFile : String := ""
  rootBuildFile : String := ""
  settingsFile : String := ""
  explicitSettingsFile : String := ""
deriving Repr

/-- Resolves the directory whose configuration is read (source:
resolveGradleRootDir). FileExists probes parse the stored path strings back
into components. -/
def resolveGradleRootDir (ctx : Context) (explicitProjectDir explicitBuildFile
    explicitSettingsFile buildFile rootBuildFile settingsFile : String) :
    String :=
  if ctx.fileExists (parsePath explicitProjectDir) = true then explicitProjectDir
  else if ctx.fileExists (parsePath explicitBuildFile) = true then
    dirName explicitBuildFile
  else if ctx.fileExists (parsePath rootBuildFile) = true then
    dirName rootBuildFile
  else if ctx.fileExists (parsePath explicitSettingsFile) = true then
    dirName explicitSettingsFile
  else if ctx.fileExists (parsePath settingsFile) = true then
    dirName settingsFile
  else dirName buildFile

/-- The result of the argument-configuration step of a command: the final
argument vector handed to the child process, the banner clauses, and the
diagnostic dump lines (empty when the debug flag is off). -/
structure ConfiguredArgs where
  args : List String
  banner : List String
  debugLines : List String
deriving Repr

/-- The stream of arguments the alias rewriter runs on (source:
doConfigureGradle, the successive GrabFlag extractions of -gn, -gd, -gr). -/
def gradleRewriteInput (args : List String) : List String :=
  (GrabFlag "-gr" ((GrabFlag "-gd" ((GrabFlag "-gn" args).2)).2)).2

/-- The configuration after the -gd and -gr meta-flags are applied (source:
doConfigureGradle, the setDebug and setReplace calls). -/
def gradleEffectiveConfig (c : GradleCommand) : Config :=
  let oargs1 := (GrabFlag "-gn" c.args).2
  let debugSet := findFlag "-gd" oargs1
  let p2 := GrabFlag "-gd" oargs1
  let replaceSet := findFlag "-gr" p2.2
  let p3 := GrabFlag "-gr" p2.2
  let config1 := if debugSet = true then setDebug c.config p2.1 else c.config
  if replaceSet = true then setReplace config1 (!p3.1) else config1

/-- The build-file and settings-file selection branch of doConfigureGradle
(source lines placing -b and -c before the payload): returns the
tool-selection argument prefix paired with the banner clauses. The inner
triple carries the buildFileSet marker of the source. -/
def gradleSelection (c : GradleCommand) (nearest : Bool) :
    List String × List String :=
  if c.explicitProjectDir ≠ "" then
    ([], ["to run project at " ++ c.explicitProjectDir ++ ":"])
  else
    let bf : List String × List String × Bool :=
      if c.explicitBuildFile ≠ "" then
        ([], ["to run buildFile " ++ c.explicitBuildFile ++ ":"], true)
      else if nearest = true ∧ c.buildFile ≠ "" then
        (["-b", c.buildFile], ["to run buildFile " ++ c.buildFile ++ ":"], true)
      else if c.rootBuildFile ≠ "" then
        (["-b", c.rootBuildFile],
         ["to run buildFile " ++ c.rootBuildFile ++ ":"], true)
      else ([], [], false)
    let st : List String × List String :=
      if c.explicitSettingsFile ≠ "" then
        ([], if bf.2.2 = true then []
             else ["with settings at " ++ c.explicitSettingsFile ++ ":"])
      else if c.settingsFile ≠ "" then
        (["-c", c.settingsFile],
         if bf.2.2 = true then []
         else ["with settings at " ++ c.settingsFile ++ ":"])
      else ([], [])
    (bf.1 ++ st.1, bf.2.1 ++ st.2)

/-- The diagnostic dump of the gradle command (source: debugGradle): the lines
printed when the debug flag of the effective configuration is set. -/
def gradleDebugLines (config : Config) (c : GradleCommand) (nearest : Bool)
    (oargs rargs args : List String) : List String :=
  if config.general.debug = true then
    ["nearest              =  " ++ toString nearest,
     "rootBuildFile        =  " ++ c.rootBuildFile,
     "buildFile            =  " ++ c.buildFile,
     "settingsFile         =  " ++ c.settingsFile,
     "explicitBuildFile    =  " ++ c.explicitBuildFile,
     "explicitSettingsFile =  " ++ c.explicitSettingsFile,
     "explicitProjectDir   =  " ++ c.explicitProjectDir,
     "original args        =  " ++ toString oargs]
    ++ (if config.gradle.replace = true then
          ["replaced args        =  " ++ toString rargs]
        else [])
    ++ ["actual args          =  " ++ toString args, ""]
  else []

/-- The argument-configuration step of GradleCommand.Execute (source:
doConfigureGradle): extracts the meta-flags, applies them to the
configuration, rewrites the remaining stream through the alias table, prepends
the tool-selection flags, and produces the banner and the diagnostic dump. -/
def doConfigureGradle (c : GradleCommand) : ConfiguredArgs :=
  let nearest := (GrabFlag "-gn" c.args).1
  let oargs := gradleRewriteInput c.args
  let config := gradleEffectiveConfig c
  let rargs := replaceGradleTasks config oargs
  let sel := gradleSelection c nearest
  let args := sel.1 ++ rargs
  { args := args
  , banner := ("Using gradle at " ++ c.executable) :: sel.2
  , debugLines := gradleDebugLines config c nearest oargs rargs args }

/-- The straight-line tail of FindGradle once an executable is chosen (source:
FindGradle after the executable selection): precedence between the explicit
project directory, the explicit build file, and discovery, including the
root-file fallback to the nearest build file and the degraded settings-only
plan. Returns the optional plan together with the recorded Exit calls. -/
def gradlePlan (config : Config) (executable : String) (args : List String)
    (pd ebf esf : Bool × String) (settingsOpt buildOpt rootOpt : Option String)
    (explicitMode : Bool) : Option GradleCommand × List Int :=
  if pd.1 = true then
    (some { config := config, executable := executable, args := args,
            explicitProjectDir := pd.2 }, [])
  else if ebf.1 = true then
    if esf.1 = true then
      (some { config := config, executable := executable, args := args,
              explicitBuildFile := ebf.2, explicitSettingsFile := esf.2 }, [])
    else
      (some { config := config, executable := executable, args := args,
              explicitBuildFile := ebf.2,
              settingsFile := settingsOpt.getD "" }, [])
  else
    let buildFile := buildOpt.getD ""
    let rootBuildFile := if rootOpt.isNone = true then buildFile
                         else rootOpt.getD ""
    if buildOpt.isNone = true then
      if esf.1 = true then
        (some { config := config, executable := executable, args := args,
                buildFile := buildFile, rootBuildFile := rootBuildFile,
                explicitSettingsFile := esf.2 }, [])
      else if settingsOpt.isSome = true then
        (some { config := config, executable := executable, args := args,
                buildFile := buildFile, rootBuildFile := rootBuildFile,
                settingsFile := settingsOpt.getD "",
                explicitSettingsFile := esf.2 }, [])
      else
        (none, if explicitMode = true then [(-1 : Int)] else [])
    else
      (some { config := config, executable := executable, args := args,
              buildFile := buildFile, rootBuildFile := rootBuildFile,
              settingsFile := settingsOpt.getD "",
              explicitSettingsFile := esf.2 }, [])

/-- Finds and plans gradlew/gradle (source: FindGradle). The wrapper is
preferred over the system executable; with neither, the function records an
Exit with code -1 in explicit mode and returns no plan. Warning output of the
source is not modelled. -/
def FindGradle (ctx : Context) (args : List String) :
    Option GradleCommand × List Int :=
  let pwd := ctx.workingDir
  let pd := findExplicitProjectDir args
  let ebf := findExplicitGradleBuildFile args
  let esf := findExplicitGradleSettingsFile args
  let settingsOpt := findGradleSettingsFile ctx pwd
  let buildOpt := findGradleBuildFile ctx pwd
  let sf := if ebf.1 = true then ebf.2 else settingsOpt.getD ""
  let rootOpt := findGradleRootFile ctx pwd.dropLast sf
  let rootdir := resolveGradleRootDir ctx pd.2 ebf.2 esf.2 (buildOpt.getD "")
    (rootOpt.getD "") (settingsOpt.getD "")
  let config := setQuiet (ctx.readConfig rootdir) ctx.quiet
  match resolveGradleWrapperExecutable ctx args with
  | some gradlew =>
    gradlePlan config gradlew args pd ebf esf settingsOpt buildOpt rootOpt
      ctx.explicitMode
  | none =>
    match findGradleExec ctx with
    | some gradle =>
      gradlePlan config gradle args pd ebf esf settingsOpt buildOpt rootOpt
        ctx.explicitMode
    | none =>
      (none, if ctx.explicitMode = true then [(-1 : Int)] else [])

/-- An executable Maven command, the invocation plan of the maven-like
resolver (source: MavenCommand). The embedded context of the source is not
carried: it is only used for printing. -/
structure MavenCommand where
  executable : String
  args : List String
  buildFile : String := ""
  explicitBuildFile : String := ""
  rootBuildFile : String := ""
deriving Repr

/-- Resolves the mvnw executable name (OS dependent). -/
def resolveMavenWrapperExec (ctx : Context) : String :=
  if ctx.windows = true then "mvnw.bat" else "mvnw"

/-- Resolves the mvn executable name (OS dependent). -/
def resolveMavenExec (ctx : Context) : String :=
  if ctx.windows = true then "mvn.bat" else "mvn"

/-- Finds the Maven wrapper by walking upward from dir (source:
findMavenWrapperExec). -/
def findMavenWrapperExec (ctx : Context) (dir : List String) : Option String :=
  upwardSearch ctx (fun _ => [resolveMavenWrapperExec ctx]) dir

/-- Finds the mvn executable on the PATH-like directories (source:
findMavenExec). -/
def findMavenExec (ctx : Context) : Option String :=
  let maven := resolveMavenExec ctx
  match ctx.paths.find? (fun p => ctx.fileExists (p ++ [maven])) with
  | some p => some (renderPath (p ++ [maven]))
  | none => none

/-- Finds the nearest pom.xml by walking upward (source: findMavenBuildFile). -/
def findMavenBuildFile (ctx : Context) (dir : List String) : Option String :=
  upwardSearch ctx (fun _ => ["pom.xml"]) dir

/-- Finds the root pom.xml by walking upward (source: findMavenRootFile; the
same walk as the nearest search, started from the parent of the working
directory by FindMaven). -/
def findMavenRootFile (ctx : Context) (dir : List String) : Option String :=
  upwardSearch ctx (fun _ => ["pom.xml"]) dir

/-- Finds an explicit -f or --file flag value, absolutized (source:
findExplicitMavenBuildFile). -/
def findExplicitMavenBuildFile (args : List String) : Bool × String :=
  let r := findFlagValue "-f" args
  let r := if r.1 = true then r else findFlagValue "--file" args
  if r.1 = true then (true, absPath r.2) else (false, "")

/-- The build-file selection branch of MavenCommand.Execute: the
tool-selection argument prefix paired with the banner clause. -/
def mavenSelection (c : MavenCommand) (nearest : Bool) :
    List String × List String :=
  if c.explicitBuildFile ≠ "" then
    ([], ["to run buildFile " ++ c.explicitBuildFile ++ ":"])
  else if nearest = true ∧ c.buildFile ≠ "" then
    (["-f", c.buildFile], ["to run buildFile " ++ c.buildFile ++ ":"])
  else if c.rootBuildFile ≠ "" then
    (["-f", c.rootBuildFile], ["to run buildFile " ++ c.rootBuildFile ++ ":"])
  else ([], [])

/-- The diagnostic dump of the maven command (source: the debug branch of
MavenCommand.Execute). -/
def mavenDebugLines (debug nearest : Bool) (nargs : List String)
    (c : MavenCommand) : List String :=
  if debug = true then
    ["nearest            =  " ++ toString nearest,
     "args               =  " ++ toString nargs,
     "rootBuildFile      =  " ++ c.rootBuildFile,
     "buildFile          =  " ++ c.buildFile,
     "explicitBuildFile  =  " ++ c.explicitBuildFile, ""]
  else []

/-- The argument-configuration step of MavenCommand.Execute (source:
MavenCommand.Execute before the child process is spawned): extracts the -gn
and -gd meta-flags, prepends the tool-selection flag, and produces the banner
and the diagnostic dump. -/
def mavenConfigure (c : MavenCommand) : ConfiguredArgs :=
  let p1 := GrabFlag "-gn" c.args
  let p2 := GrabFlag "-gd" p1.2
  let sel := mavenSelection c p1.1
  { args := sel.1 ++ p2.2
  , banner := ("Using maven at " ++ c.executable) :: sel.2
  , debugLines := mavenDebugLines p2.1 p1.1 p2.2 c }

/-- The straight-line tail of FindMaven once an executable is chosen (source:
FindMaven after the executable selection). -/
def mavenPlan (executable : String) (args : List String) (ebf : Bool × String)
    (buildOpt rootOpt : Option String) (explicitMode : Bool) :
    Option MavenCommand × List Int :=
  if ebf.1 = true then
    (some { executable := executable, args := args,
            explicitBuildFile := ebf.2 }, [])
  else
    let buildFile := buildOpt.getD ""
    let rootBuildFile := if rootOpt.isNone = true then buildFile
                         else rootOpt.getD ""
    if buildOpt.isNone = true then
      (none, if explicitMode = true then [(-1 : Int)] else [])
    else
      (some { executable := executable, args := args,
              rootBuildFile := rootBuildFile, buildFile := buildFile }, [])

/-- Finds and plans mvnw/mvn (source: FindMaven). The wrapper is preferred
over the system executable; with neither, the function records an Exit with
code -1 in explicit mode and returns no plan. Warning output of the source is
not modelled. -/
def FindMaven (ctx : Context) (args : List String) :
    Option MavenCommand × List Int :=
  let pwd := ctx.workingDir
  let ebf := findExplicitMavenBuildFile args
  let rootOpt := findMavenRootFile ctx pwd.dropLast
  let buildOpt := findMavenBuildFile ctx pwd
  match findMavenWrapperExec ctx pwd with
  | some mvnw => mavenPlan mvnw args ebf buildOpt rootOpt ctx.explicitMode
  | none =>
    match findMavenExec ctx with
    | some mvn => mavenPlan mvn args ebf buildOpt rootOpt ctx.explicitMode
    | none =>
      (none, if ctx.explicitMode = true then [(-1 : Int)] else [])

/-! General lemmas about the path model, the upward walks and the rewriter. -/

lemma renderPath_ne_empty (cs : List String) : renderPath cs ≠ "" := by
  intro h
  have hlen := congrArg String.length h
  rw [renderPath, String.length_append] at hlen
  have h1 : ("/" : String).length = 1 := rfl
  have h2 : ("" : String).length = 0 := rfl
  omega

lemma prefix_dropLast_of_ne {d l : List String} (hp : d <+: l) (hne : d ≠ l) :
    d <+: l.dropLast := by
  obtain ⟨t, rfl⟩ := hp
  have ht : t ≠ [] := by rintro rfl; simp at hne
  rw [List.dropLast_append_of_ne_nil d ht]
  exact ⟨t.dropLast, rfl⟩

lemma upwardSearchAux_some_spec (ctx : Context)
    (cands : List String → List String) :
    ∀ fuel dir s, upwardSearchAux ctx cands fuel dir = some s →
      ∃ d n, d ≠ [] ∧ d <+: dir ∧ n ∈ cands d ∧
        ctx.fileExists (d ++ [n]) = true ∧ s = renderPath (d ++ [n]) := by
  intro fuel
  induction fuel with
  | zero => intro dir s h; simp [upwardSearchAux] at h
  | succ fuel ih =>
    intro dir s h
    simp only [upwardSearchAux] at h
    by_cases hd : dir = []
    · rw [if_pos hd] at h; exact absurd h (by simp)
    · rw [if_neg hd] at h
      cases hfind : (cands dir).find? (fun n => ctx.fileExists (dir ++ [n])) with
      | some n =>
        rw [hfind] at h
        refine ⟨dir, n, hd, List.prefix_refl dir,
          List.mem_of_find?_eq_some hfind, ?_, ?_⟩
        · simpa using List.find?_some hfind
        · exact (Option.some.inj h).symm
      | none =>
        rw [hfind] at h
        obtain ⟨d, n, hd', hp, hm, hex, hs⟩ := ih dir.dropLast s h
        exact ⟨d, n, hd', hp.trans (List.dropLast_prefix dir), hm, hex, hs⟩

lemma upwardSearchAux_ne_none (ctx : Context)
    (cands : List String → List String) :
    ∀ fuel dir d n, dir.length ≤ fuel → d ≠ [] → d <+: dir → n ∈ cands d →
      ctx.fileExists (d ++ [n]) = true →
      upwardSearchAux ctx cands fuel dir ≠ none := by
  intro fuel
  induction fuel with
  | zero =>
    intro dir d n hlen hd hp _ _
    have : dir = [] := List.length_eq_zero.mp (Nat.le_zero.mp hlen)
    subst this
    exact absurd (List.prefix_nil.mp hp) hd
  | succ fuel ih =>
    intro dir d n hlen hd hp hm hex
    have hdir : dir ≠ [] := by
      rintro rfl
      exact hd (List.prefix_nil.mp hp)
    simp only [upwardSearchAux]
    rw [if_neg hdir]
    cases hfind : (cands dir).find? (fun nn => ctx.fileExists (dir ++ [nn])) with
    | some n0 => simp
    | none =>
      have hdne : d ≠ dir := by
        rintro rfl
        have := List.find?_eq_none.mp hfind n hm
        simp [hex] at this
      have hp' : d <+: dir.dropLast := prefix_dropLast_of_ne hp hdne
      have hlen' : dir.dropLast.length ≤ fuel := by
        have h1 := List.length_dropLast dir
        have h2 : 0 < dir.length := List.length_pos.mpr hdir
        omega
      exact ih dir.dropLast d n hlen' hd hp' hm hex

lemma upwardSearch_some_spec {ctx : Context} {cands : List String → List String}
    {dir : List String} {s : String} (h : upwardSearch ctx cands dir = some s) :
    ∃ d n, d ≠ [] ∧ d <+: dir ∧ n ∈ cands d ∧
      ctx.fileExists (d ++ [n]) = true ∧ s = renderPath (d ++ [n]) :=
  upwardSearchAux_some_spec ctx cands dir.length dir s h

lemma upwardSearch_ne_none {ctx : Context} {cands : List String → List String}
    {dir d : List String} {n : String} (hd : d ≠ []) (hp : d <+: dir)
    (hm : n ∈ cands d) (hex : ctx.fileExists (d ++ [n]) = true) :
    upwardSearch ctx cands dir ≠ none :=
  upwardSearchAux_ne_none ctx cands dir.length dir d n (Nat.le_refl _) hd hp hm hex

lemma upwardSearch_some_ne_empty {ctx : Context}
    {cands : List String → List String} {dir : List String} {s : String}
    (h : upwardSearch ctx cands dir = some s) : s ≠ "" := by
  obtain ⟨d, n, _, _, _, _, hs⟩ := upwardSearch_some_spec h
  rw [hs]
  exact renderPath_ne_empty _

lemma findGradleRootFileAux_some_spec (ctx : Context) (sf : String) :
    ∀ fuel dir s, findGradleRootFileAux ctx sf fuel dir = some s →
      ∃ d n, d ≠ [] ∧ d <+: dir ∧
        (n = "build.gradle" ∨ n = "build.gradle.kts") ∧
        ctx.fileExists (d ++ [n]) = true ∧ s = renderPath (d ++ [n]) ∧
        (d = dir ∨ (0 < sf.length →
          (dirName sf).length < (renderPath d).length)) ∧
        (∀ e, d <+: e → e <+: dir → e ≠ d →
          ∀ m, (m = "build.gradle" ∨ m = "build.gradle.kts") →
            ctx.fileExists (e ++ [m]) = false) := by
  intro fuel
  induction fuel with
  | zero => intro dir s h; simp [findGradleRootFileAux] at h
  | succ fuel ih =>
    intro dir s h
    simp only [findGradleRootFileAux] at h
    by_cases hd : dir = []
    · rw [if_pos hd] at h; exact absurd h (by simp)
    · rw [if_neg hd] at h
      cases hfind : (["build.gradle", "build.gradle.kts"]).find?
          (fun n => ctx.fileExists (dir ++ [n])) with
      | some n =>
        rw [hfind] at h
        have hm := List.mem_of_find?_eq_some hfind
        have hex : ctx.fileExists (dir ++ [n]) = true := by
          simpa using List.find?_some hfind
        refine ⟨dir, n, hd, List.prefix_refl dir, by simpa using hm, hex,
          (Option.some.inj h).symm, Or.inl rfl, ?_⟩
        intro e hde hedir hned _ _
        exact absurd (hedir.eq_of_length
          (Nat.le_antisymm hedir.length_le hde.length_le)) hned
      | none =>
        rw [hfind] at h
        by_cases hbound : 0 < sf.length ∧
            (renderPath dir.dropLast).length ≤ (dirName sf).length
        · rw [if_pos hbound] at h; exact absurd h (by simp)
        · rw [if_neg hbound] at h
          obtain ⟨d, n, hd', hp, hn, hex, hs, hdisj, hmid⟩ :=
            ih dir.dropLast s h
          refine ⟨d, n, hd', hp.trans (List.dropLast_prefix dir), hn, hex, hs,
            ?_, ?_⟩
          · right
            intro hsf
            rcases hdisj with rfl | hlt
            · push_neg at hbound
              exact hbound hsf
            · exact hlt hsf
          · intro e hde hedir hned m hm
            by_cases he : e = dir
            · subst he
              have := List.find?_eq_none.mp hfind m (by rcases hm with rfl | rfl <;> simp)
              simpa using this
            · exact hmid e hde (prefix_dropLast_of_ne hedir he) hned m hm

lemma findGradleRootFile_some_spec {ctx : Context} {sf : String}
    {dir : List String} {s : String}
    (h : findGradleRootFile ctx dir sf = some s) :
    ∃ d n, d ≠ [] ∧ d <+: dir ∧
      (n = "build.gradle" ∨ n = "build.gradle.kts") ∧
      ctx.fileExists (d ++ [n]) = true ∧ s = renderPath (d ++ [n]) ∧
      (d = dir ∨ (0 < sf.length →
        (dirName sf).length < (renderPath d).length)) ∧
      (∀ e, d <+: e → e <+: dir → e ≠ d →
        ∀ m, (m = "build.gradle" ∨ m = "build.gradle.kts") →
          ctx.fileExists (e ++ [m]) = false) :=
  findGradleRootFileAux_some_spec ctx sf dir.length dir s h

lemma lookup_mem {mappings : List (String × List String)} {k : String}
    {r : List String} (h : mappings.lookup k = some r) : (k, r) ∈ mappings := by
  induction mappings with
  | nil => simp [List.lookup] at h
  | cons p ps ih =>
    rw [List.lookup] at h
    by_cases hk : (k == p.1) = true
    · rw [hk] at h
      have hr : p.2 = r := Option.some.inj h
      have hk2 : k = p.1 := eq_of_beq hk
      have hpe : (k, r) = p := Prod.ext hk2 hr.symm
      rw [hpe]
      exact List.mem_cons_self _ _
    · rw [Bool.not_eq_true] at hk
      rw [hk] at h
      exact List.mem_cons_of_mem _ (ih h)

lemma mem_replaceArgs {a : String} {args : List String}
    {mappings : List (String × List String)}
    (h : a ∈ replaceArgs args mappings) :
    a ∈ args ∨ ∃ p ∈ mappings, a ∈ p.2 := by
  induction args with
  | nil => simp [replaceArgs] at h
  | cons x xs ih =>
    simp only [replaceArgs, List.map_cons, List.flatten_cons,
      List.mem_append] at h
    rcases h with h | h
    · cases hl : mappings.lookup x with
      | some r =>
        rw [hl] at h
        exact Or.inr ⟨(x, r), lookup_mem hl, h⟩
      | none =>
        rw [hl] at h
        simp only [List.mem_singleton] at h
        exact Or.inl (h ▸ List.mem_cons_self x xs)
    · rcases ih h with h' | h'
      · exact Or.inl (List.mem_cons_of_mem x h')
      · exact Or.inr h'

lemma replaceArgs_nil_mappings (args : List String) :
    replaceArgs args [] = args := by
  induction args with
  | nil => rfl
  | cons x xs ih =>
    simp only [replaceArgs, List.map_cons, List.flatten_cons, List.lookup] at *
    rw [ih]
    rfl

lemma filter_filter_bool (p q : String → Bool) (l : List String) :
    (l.filter p).filter q = l.filter (fun a => p a && q a) := by
  induction l with
  | nil => rfl
  | cons x xs ih =>
    by_cases hp : p x = true <;> by_cases hq : q x = true <;>
      simp [List.filter_cons, hp, hq, ih]

lemma doConfigureGradle_args (c : GradleCommand) :
    (doConfigureGradle c).args
      = (gradleSelection c (GrabFlag "-gn" c.args).1).1
        ++ replaceGradleTasks (gradleEffectiveConfig c)
            (gradleRewriteInput c.args) := rfl

lemma mem_gradleRewriteInput {a : String} {args : List String}
    (h : a ∈ gradleRewriteInput args) : a ∈ args := by
  simp only [gradleRewriteInput, GrabFlag] at h
  exact List.mem_of_mem_filter (List.mem_of_mem_filter (List.mem_of_mem_filter h))

lemma gradleEffectiveConfig_mappings (c : GradleCommand) :
    (gradleEffectiveConfig c).gradle.mappings = c.config.gradle.mappings := by
  simp only [gradleEffectiveConfig, setDebug, setReplace]
  split <;> split <;> rfl

lemma mem_replaceGradleTasks {a : String} {config : Config} {args : List String}
    (h : a ∈ replaceGradleTasks config args) :
    a ∈ args ∨ ∃ p ∈ config.gradle.mappings, a ∈ p.2 := by
  rw [replaceGradleTasks] at h
  split at h
  · exact mem_replaceArgs h
  · exact Or.inl h

/-! Claim C9 -/

/-- C9: for every input argument sequence, the argument rewriter is the
identity function when rewriting is disabled or when the alias mapping table
is empty: the output list equals the input list element for element. -/
theorem C9_theorem (config : Config) (args : List String)
    (h : config.gradle.replace = false ∨ config.gradle.mappings = []) :
    replaceGradleTasks config args = args := by
  rcases h with h | h
  · simp [replaceGradleTasks, h]
  · rw [replaceGradleTasks]
    by_cases hr : config.gradle.replace = true
    · rw [if_pos hr, h, replaceArgs_nil_mappings]
    · rw [if_neg hr]

/-- C9 witness: the rewriter is the identity at a concrete disabled
configuration with a non-empty table, on concrete arguments. -/
theorem C9_witness :
    replaceGradleTasks
      { gradle := { replace := false, mappings := [("a", ["b", "c"])] } }
      ["x", "a", "y"] = ["x", "a", "y"] :=
  C9_theorem _ _ (Or.inl rfl)

/-! Claim C3 -/

/-- Concrete command used to refute C3: the user arguments still contain the
tool-selection flag -b when the alias rewriter runs, and the alias table maps
the -b token. This is the state FindGradle produces for an explicit build
file, since the plan keeps the original argument vector. -/
def c3cmd : GradleCommand :=
  { config := { gradle := { replace := true,
                            mappings := [("-b", ["SUBSTITUTED"])] } }
  , executable := "/t/gradlew"
  , args := ["-b", "/a/x.gradle", "build"]
  , explicitBuildFile := "/a/x.gradle" }

/-- C3 counterexample: the tool-selection flag -b is not removed from the
argument stream before the alias rewriter runs. At this concrete input the
stream the rewriter sees still contains -b, and the assembled argument vector
shows the rewriter substituted it through the alias table. -/
theorem C3_counterexample :
    "-b" ∈ gradleRewriteInput c3cmd.args ∧
    (doConfigureGradle c3cmd).args = ["SUBSTITUTED", "/a/x.gradle", "build"] := by
  constructor
  · decide
  · rfl

/-- C3 (amended): only the meta-flags -gn, -gd and -gr are removed from the
argument stream before the alias rewriter runs: the stream the rewriter sees
is the input argument list with exactly those tokens removed (order
preserved), and the assembled vector is the tool-selection prefix followed by
the rewritten stream; the tool-selection flags -b, -c, -f, -p and their values
are not stripped and may be substituted when the alias table maps them. -/
theorem C3_theorem (c : GradleCommand) :
    gradleRewriteInput c.args
      = c.args.filter
          (fun a => (a != "-gn" && a != "-gd") && a != "-gr") ∧
    (doConfigureGradle c).args
      = (gradleSelection c (GrabFlag "-gn" c.args).1).1
        ++ replaceGradleTasks (gradleEffectiveConfig c)
            (gradleRewriteInput c.args) := by
  refine ⟨?_, doConfigureGradle_args c⟩
  simp only [gradleRewriteInput, GrabFlag]
  rw [filter_filter_bool, filter_filter_bool]
  congr 1
  funext a
  cases a != "-gn" <;> cases a != "-gd" <;> cases a != "-gr" <;> rfl

/-! Claim C2 -/

lemma gradleSelection_no_b (c : GradleCommand) (nearest : Bool)
    (h1 : c.explicitBuildFile = "") (h2 : c.buildFile = "")
    (h3 : c.rootBuildFile = "") (h6 : c.settingsFile ≠ "-b") :
    "-b" ∉ (gradleSelection c nearest).1 := by
  rw [gradleSelection]
  by_cases hpd : c.explicitProjectDir ≠ ""
  · simp [hpd]
  · rw [if_neg hpd]
    have hbf1 : ¬ (c.explicitBuildFile ≠ "") := by simp [h1]
    have hbf2 : ¬ (nearest = true ∧ c.buildFile ≠ "") := by simp [h2]
    have hbf3 : ¬ (c.rootBuildFile ≠ "") := by simp [h3]
    simp only [if_neg hbf1, if_neg hbf2, if_neg hbf3]
    by_cases hesf : c.explicitSettingsFile ≠ ""
    · simp [hesf]
    · rw [if_neg hesf]
      by_cases hsf : c.settingsFile ≠ ""
      · rw [if_pos hsf]
        intro hmem
        simp only [List.nil_append, List.mem_cons, List.not_mem_nil,
          or_false] at hmem
        rcases hmem with hmem | hmem
        · exact absurd hmem (by decide)
        · exact h6 hmem.symm
      · rw [if_neg hsf]
        simp

lemma mavenSelection_empty (c : MavenCommand) (nearest : Bool)
    (h1 : c.explicitBuildFile = "") (h2 : c.buildFile = "")
    (h3 : c.rootBuildFile = "") :
    (mavenSelection c nearest).1 = [] := by
  rw [mavenSelection]
  simp [h1, h2, h3]

/-- C2: for every resolution in which neither an explicit build file nor a
discovered build file exists (explicitBuildFile, buildFile and rootBuildFile
all empty), the argument vector assembled by the Execute step of the command
contains no -b (gradle-like) or -f (maven-like) token. The payload
hypotheses state that the user arguments and the alias replacement values do
not themselves carry the flag token (the step passes the stripped payload
through verbatim, so a flag token in the payload is not one the step adds),
and that the stored settings path is not the literal flag token. -/
theorem C2_theorem (c : GradleCommand) (m : MavenCommand)
    (h1 : c.explicitBuildFile = "") (h2 : c.buildFile = "")
    (h3 : c.rootBuildFile = "")
    (h4 : "-b" ∉ c.args)
    (h5 : ∀ p ∈ c.config.gradle.mappings, "-b" ∉ p.2)
    (h6 : c.settingsFile ≠ "-b")
    (hm1 : m.explicitBuildFile = "") (hm2 : m.buildFile = "")
    (hm3 : m.rootBuildFile = "") (hm4 : "-f" ∉ m.args) :
    "-b" ∉ (doConfigureGradle c).args ∧ "-f" ∉ (mavenConfigure m).args := by
  constructor
  · rw [doConfigureGradle_args]
    intro hmem
    rcases List.mem_append.mp hmem with hmem | hmem
    · exact gradleSelection_no_b c _ h1 h2 h3 h6 hmem
    · rcases mem_replaceGradleTasks hmem with hmem | ⟨p, hp, hpm⟩
      · exact h4 (mem_gradleRewriteInput hmem)
      · rw [gradleEffectiveConfig_mappings] at hp
        exact h5 p hp hpm
  · intro hmem
    simp only [mavenConfigure] at hmem
    rw [mavenSelection_empty m _ hm1 hm2 hm3] at hmem
    simp only [List.nil_append] at hmem
    simp only [GrabFlag] at hmem
    exact hm4 (List.mem_of_mem_filter (List.mem_of_mem_filter hmem))

/-- C2 witness: a concrete gradle command and maven command with all three
build-file fields empty; the assembled vectors carry no -b and no -f. -/
theorem C2_witness :
    "-b" ∉ (doConfigureGradle
      { config := {}, executable := "/t/gradlew",
        args := ["clean", "build"], settingsFile := "/t/settings.gradle" }).args ∧
    "-f" ∉ (mavenConfigure
      { executable := "/t/mvnw", args := ["verify"] }).args :=
  C2_theorem _ _ rfl rfl rfl (by decide) (by decide) (by decide)
    rfl rfl rfl (by decide)

/-! Claim C4 -/

lemma contains_eq_false_of_not_mem {a : String} {l : List String}
    (h : a ∉ l) : l.contains a = false := by
  rw [Bool.eq_false_iff]
  intro hc
  exact h (List.elem_iff.mp hc)

lemma contains_eq_true_of_mem {a : String} {l : List String}
    (h : a ∈ l) : l.contains a = true :=
  List.elem_iff.mpr h

lemma gradleSelection_root (c : GradleCommand)
    (h1 : c.explicitProjectDir = "") (h2 : c.explicitBuildFile = "")
    (hr : c.rootBuildFile ≠ "") :
    ∃ tail, (gradleSelection c false).1 = "-b" :: c.rootBuildFile :: tail := by
  simp [gradleSelection, h1, h2, hr]

lemma gradleSelection_nearest (c : GradleCommand)
    (h1 : c.explicitProjectDir = "") (h2 : c.explicitBuildFile = "")
    (hb : c.buildFile ≠ "") :
    ∃ tail, (gradleSelection c true).1 = "-b" :: c.buildFile :: tail := by
  simp [gradleSelection, h1, h2, hb]

lemma doConfigureGradle_debugLines (c : GradleCommand) :
    (doConfigureGradle c).debugLines
      = gradleDebugLines (gradleEffectiveConfig c) c (GrabFlag "-gn" c.args).1
          (gradleRewriteInput c.args)
          (replaceGradleTasks (gradleEffectiveConfig c) (gradleRewriteInput c.args))
          ((gradleSelection c (GrabFlag "-gn" c.args).1).1
            ++ replaceGradleTasks (gradleEffectiveConfig c)
                (gradleRewriteInput c.args)) := rfl

lemma gradleEffectiveConfig_debug_true (c : GradleCommand)
    (h : "-gd" ∈ c.args) : (gradleEffectiveConfig c).general.debug = true := by
  have h1 : "-gd" ∈ (GrabFlag "-gn" c.args).2 := by
    simp only [GrabFlag]
    exact List.mem_filter.mpr ⟨h, by decide⟩
  have hset : findFlag "-gd" (GrabFlag "-gn" c.args).2 = true := by
    rw [findFlag]
    exact contains_eq_true_of_mem h1
  have hval : (GrabFlag "-gd" (GrabFlag "-gn" c.args).2).1 = true := by
    simp only [GrabFlag]
    exact contains_eq_true_of_mem h1
  simp only [gradleEffectiveConfig, hset, if_pos]
  split
  · simp [setReplace, setDebug, hval]
  · simp [setDebug, hval]

/-- C4: for every pair of build files where both the nearest and the root
build file are known (a build file exists at both a child directory and its
parent), in both tool families: when the -gn flag is absent from the
arguments, the root build file is passed right after the tool-selection flag
(-b for gradle-like, -f for maven-like); when -gn is present, the nearest
build file is passed instead; and in both cases the root build file is still
reported in the diagnostic dump whenever it is enabled by -gd. -/
theorem C4_theorem (c : GradleCommand) (m : MavenCommand)
    (h1 : c.explicitProjectDir = "") (h2 : c.explicitBuildFile = "")
    (hb : c.buildFile ≠ "") (hr : c.rootBuildFile ≠ "")
    (hm2 : m.explicitBuildFile = "") (hmb : m.buildFile ≠ "")
    (hmr : m.rootBuildFile ≠ "") :
    (("-gn" ∉ c.args →
        ∃ rest, (doConfigureGradle c).args = "-b" :: c.rootBuildFile :: rest) ∧
     ("-gn" ∈ c.args →
        ∃ rest, (doConfigureGradle c).args = "-b" :: c.buildFile :: rest) ∧
     ("-gd" ∈ c.args →
        "rootBuildFile        =  " ++ c.rootBuildFile
          ∈ (doConfigureGradle c).debugLines)) ∧
    (("-gn" ∉ m.args →
        ∃ rest, (mavenConfigure m).args = "-f" :: m.rootBuildFile :: rest) ∧
     ("-gn" ∈ m.args →
        ∃ rest, (mavenConfigure m).args = "-f" :: m.buildFile :: rest) ∧
     ("-gd" ∈ m.args →
        "rootBuildFile      =  " ++ m.rootBuildFile
          ∈ (mavenConfigure m).debugLines)) := by
  refine ⟨⟨?_, ?_, ?_⟩, ?_, ?_, ?_⟩
  · intro hgn
    have hnear : (GrabFlag "-gn" c.args).1 = false := by
      simp only [GrabFlag]
      exact contains_eq_false_of_not_mem hgn
    obtain ⟨tail, htail⟩ := gradleSelection_root c h1 h2 hr
    refine ⟨tail ++ replaceGradleTasks (gradleEffectiveConfig c)
      (gradleRewriteInput c.args), ?_⟩
    rw [doConfigureGradle_args, hnear, htail]
    simp
  · intro hgn
    have hnear : (GrabFlag "-gn" c.args).1 = true := by
      simp only [GrabFlag]
      exact contains_eq_true_of_mem hgn
    obtain ⟨tail, htail⟩ := gradleSelection_nearest c h1 h2 hb
    refine ⟨tail ++ replaceGradleTasks (gradleEffectiveConfig c)
      (gradleRewriteInput c.args), ?_⟩
    rw [doConfigureGradle_args, hnear, htail]
    simp
  · intro hgd
    rw [doConfigureGradle_debugLines, gradleDebugLines,
      if_pos (gradleEffectiveConfig_debug_true c hgd)]
    simp
  · intro hgn
    have hnear : (GrabFlag "-gn" m.args).1 = false := by
      simp only [GrabFlag]
      exact contains_eq_false_of_not_mem hgn
    simp only [mavenConfigure, hnear]
    rw [mavenSelection]
    rw [if_neg (by simp [hm2]), if_neg (by simp : ¬ ((false : Bool) = true ∧ m.buildFile ≠ "")),
      if_pos hmr]
    exact ⟨_, rfl⟩
  · intro hgn
    have hnear : (GrabFlag "-gn" m.args).1 = true := by
      simp only [GrabFlag]
      exact contains_eq_true_of_mem hgn
    simp only [mavenConfigure, hnear]
    rw [mavenSelection]
    rw [if_neg (by simp [hm2]), if_pos ⟨rfl, hmb⟩]
    exact ⟨_, rfl⟩
  · intro hgd
    have hmem : "-gd" ∈ (GrabFlag "-gn" m.args).2 := by
      simp only [GrabFlag]
      exact List.mem_filter.mpr ⟨hgd, by decide⟩
    have hdbg : (GrabFlag "-gd" (GrabFlag "-gn" m.args).2).1 = true := by
      simp only [GrabFlag]
      exact contains_eq_true_of_mem hmem
    simp only [mavenConfigure, mavenDebugLines, hdbg, if_pos]
    simp

/-- C4 witness: a concrete gradle command and maven command with distinct
nearest and root build files; with -gd present and -gn absent the assembled
vectors start with the root file after the tool-selection flag and the root
file appears in the diagnostic dump. -/
theorem C4_witness :
    (("-gn" ∉ (["-gd", "build"] : List String) →
        ∃ rest, (doConfigureGradle
          { config := {}, executable := "/p/gradlew", args := ["-gd", "build"],
            buildFile := "/p/c/build.gradle",
            rootBuildFile := "/p/build.gradle" }).args
          = "-b" :: "/p/build.gradle" :: rest) ∧
     ("-gn" ∈ (["-gd", "build"] : List String) →
        ∃ rest, (doConfigureGradle
          { config := {}, executable := "/p/gradlew", args := ["-gd", "build"],
            buildFile := "/p/c/build.gradle",
            rootBuildFile := "/p/build.gradle" }).args
          = "-b" :: "/p/c/build.gradle" :: rest) ∧
     ("-gd" ∈ (["-gd", "build"] : List String) →
        "rootBuildFile        =  " ++ "/p/build.gradle"
          ∈ (doConfigureGradle
          { config := {}, executable := "/p/gradlew", args := ["-gd", "build"],
            buildFile := "/p/c/build.gradle",
            rootBuildFile := "/p/build.gradle" }).debugLines)) ∧
    (("-gn" ∉ (["-gd", "verify"] : List String) →
        ∃ rest, (mavenConfigure
          { executable := "/p/mvnw", args := ["-gd", "verify"],
            buildFile := "/p/c/pom.xml", rootBuildFile := "/p/pom.xml" }).args
          = "-f" :: "/p/pom.xml" :: rest) ∧
     ("-gn" ∈ (["-gd", "verify"] : List String) →
        ∃ rest, (mavenConfigure
          { executable := "/p/mvnw", args := ["-gd", "verify"],
            buildFile := "/p/c/pom.xml", rootBuildFile := "/p/pom.xml" }).args
          = "-f" :: "/p/c/pom.xml" :: rest) ∧
     ("-gd" ∈ (["-gd", "verify"] : List String) →
        "rootBuildFile      =  " ++ "/p/pom.xml"
          ∈ (mavenConfigure
          { executable := "/p/mvnw", args := ["-gd", "verify"],
            buildFile := "/p/c/pom.xml", rootBuildFile := "/p/pom.xml" }).debugLines)) :=
  C4_theorem
    { config := {}, executable := "/p/gradlew", args := ["-gd", "build"],
      buildFile := "/p/c/build.gradle", rootBuildFile := "/p/build.gradle" }
    { executable := "/p/mvnw", args := ["-gd", "verify"],
      buildFile := "/p/c/pom.xml", rootBuildFile := "/p/pom.xml" }
    rfl rfl (by decide) (by decide) rfl (by decide) (by decide)

/-! Claim C1 -/

/-- Concrete directory tree used for C1: build.gradle exists at both the
directory a/b and its parent a. -/
def ctxC1 : Context :=
  { workingDir := ["a", "b", "c"]
  , fileExists := fun p =>
      [["a", "build.gradle"], ["a", "b", "build.gradle"]].contains p
  , paths := []
  , windows := false
  , explicitMode := true
  , quiet := true
  , readConfig := fun _ => {} }

/-- C1 counterexample: the root build file search returns the build file of
the directory a/b although the same-named file also exists in the parent
directory a, so the returned file is not the topmost file of the chain of
same-named build files. -/
theorem C1_counterexample :
    findGradleRootFile ctxC1 ["a", "b"] "" = some "/a/b/build.gradle" ∧
    ctxC1.fileExists (["a", "b"].dropLast ++ ["build.gradle"]) = true := by
  constructor
  · rfl
  · rfl

/-- C1 (amended): the root build file search returns the build file of the
nearest directory at or above its starting directory that contains
build.gradle or build.gradle.kts (the strictly deeper directories on the walk
contain neither candidate); it does not require the same-named file to be
absent from the parent directory — the root character comes from the search
being started at the parent of the working directory and from the settings
boundary, not from a parent tie-break. -/
theorem C1_theorem (ctx : Context) (dir : List String) (sf : String)
    (s : String) (h : findGradleRootFile ctx dir sf = some s) :
    ∃ d n, d ≠ [] ∧ d <+: dir ∧
      (n = "build.gradle" ∨ n = "build.gradle.kts") ∧
      ctx.fileExists (d ++ [n]) = true ∧ s = renderPath (d ++ [n]) ∧
      ∀ e, d <+: e → e <+: dir → e ≠ d →
        ∀ m, (m = "build.gradle" ∨ m = "build.gradle.kts") →
          ctx.fileExists (e ++ [m]) = false := by
  obtain ⟨d, n, hd1, hd2, hd3, hd4, hd5, _, hd7⟩ :=
    findGradleRootFile_some_spec h
  exact ⟨d, n, hd1, hd2, hd3, hd4, hd5, hd7⟩

/-- C1 witness: the amended statement evaluated on the concrete tree of the
counterexample. -/
theorem C1_witness :
    ∃ d n, d ≠ [] ∧ d <+: (["a", "b"] : List String) ∧
      (n = "build.gradle" ∨ n = "build.gradle.kts") ∧
      ctxC1.fileExists (d ++ [n]) = true ∧
      ("/a/b/build.gradle" : String) = renderPath (d ++ [n]) ∧
      ∀ e, d <+: e → e <+: (["a", "b"] : List String) → e ≠ d →
        ∀ m, (m = "build.gradle" ∨ m = "build.gradle.kts") →
          ctxC1.fileExists (e ++ [m]) = false :=
  C1_theorem ctxC1 ["a", "b"] "" "/a/b/build.gradle" (by decide)

/-! Claim C8 -/

/-- Concrete directory tree used for C8: the settings file sits in the
working directory a/b itself, and build.gradle exists in the parent a. -/
def ctxC8 : Context :=
  { workingDir := ["a", "b"]
  , fileExists := fun p =>
      [["a", "build.gradle"], ["a", "b", "settings.gradle"]].contains p
  , paths := []
  , windows := false
  , explicitMode := true
  , quiet := true
  , readConfig := fun _ => {} }

/-- C8 counterexample: with the non-empty boundary settings file in a/b and
the search started (as FindGradle does) at the parent of the working
directory, the walk returns the build file of the directory a, which is
strictly shallower than the settings-file directory a/b: the boundary check
only guards the recursion into a parent, not the first probed directory. -/
theorem C8_counterexample :
    findGradleRootFile ctxC8 ["a"] "/a/b/settings.gradle"
      = some "/a/build.gradle" ∧
    0 < ("/a/b/settings.gradle" : String).length ∧
    dirName "/a/build.gradle" = "/a" ∧
    dirName "/a/b/settings.gradle" = "/a/b" ∧
    (parsePath (dirName "/a/build.gradle")).length <
      (parsePath (dirName "/a/b/settings.gradle")).length := by
  refine ⟨?_, ?_, ?_, ?_, ?_⟩ <;> decide

/-- C8 (amended): given a non-empty boundary settings file, the walk refuses
to move to a parent directory whose rendered path is not longer than the
settings-file directory path (reporting NotFound instead); consequently a
returned root build file lies either in the starting directory itself or in a
directory whose rendered path is strictly longer than the settings-file
directory path. The first probed directory is exempt from the boundary. -/
theorem C8_theorem (ctx : Context) (dir : List String) (sf : String)
    (s : String) (hsf : 0 < sf.length)
    (h : findGradleRootFile ctx dir sf = some s) :
    ∃ d n, s = renderPath (d ++ [n]) ∧ ctx.fileExists (d ++ [n]) = true ∧
      (d = dir ∨ (dirName sf).length < (renderPath d).length) := by
  obtain ⟨d, n, _, _, _, h4, h5, h6, _⟩ := findGradleRootFile_some_spec h
  refine ⟨d, n, h5, h4, ?_⟩
  rcases h6 with h6 | h6
  · exact Or.inl h6
  · exact Or.inr (h6 hsf)

/-- Concrete tree for the C8 witness: settings in a, build.gradle in a/b,
search started at a/b/c. -/
def ctxC8w : Context :=
  { workingDir := ["a", "b", "c", "d"]
  , fileExists := fun p =>
      [["a", "settings.gradle"], ["a", "b", "build.gradle"]].contains p
  , paths := []
  , windows := false
  , explicitMode := true
  , quiet := true
  , readConfig := fun _ => {} }

/-- C8 witness: the amended statement evaluated on a concrete tree where the
walk recurses once past the boundary check before finding the root file. -/
theorem C8_witness :
    ∃ d n, ("/a/b/build.gradle" : String) = renderPath (d ++ [n]) ∧
      ctxC8w.fileExists (d ++ [n]) = true ∧
      (d = (["a", "b", "c"] : List String) ∨
        (dirName "/a/settings.gradle").length < (renderPath d).length) :=
  C8_theorem ctxC8w ["a", "b", "c"] "/a/settings.gradle" "/a/b/build.gradle"
    (by decide) (by decide)

/-! Claims about FindGradle and FindMaven -/

lemma FindGradle_eq_gradlePlan (ctx : Context) (args : List String)
    (exe : String)
    (h : resolveGradleWrapperExecutable ctx args = some exe ∨
      (resolveGradleWrapperExecutable ctx args = none ∧
        findGradleExec ctx = some exe)) :
    ∃ config, FindGradle ctx args
      = gradlePlan config exe args (findExplicitProjectDir args)
          (findExplicitGradleBuildFile args)
          (findExplicitGradleSettingsFile args)
          (findGradleSettingsFile ctx ctx.workingDir)
          (findGradleBuildFile ctx ctx.workingDir)
          (findGradleRootFile ctx ctx.workingDir.dropLast
            (if (findExplicitGradleBuildFile args).1 = true
             then (findExplicitGradleBuildFile args).2
             else (findGradleSettingsFile ctx ctx.workingDir).getD ""))
          ctx.explicitMode := by
  refine ⟨setQuiet (ctx.readConfig (resolveGradleRootDir ctx
      (findExplicitProjectDir args).2 (findExplicitGradleBuildFile args).2
      (findExplicitGradleSettingsFile args).2
      ((findGradleBuildFile ctx ctx.workingDir).getD "")
      ((findGradleRootFile ctx ctx.workingDir.dropLast
        (if (findExplicitGradleBuildFile args).1 = true
         then (findExplicitGradleBuildFile args).2
         else (findGradleSettingsFile ctx ctx.workingDir).getD "")).getD "")
      ((findGradleSettingsFile ctx ctx.workingDir).getD ""))) ctx.quiet, ?_⟩
  rcases h with h | ⟨h1, h2⟩
  · simp only [FindGradle, h]
  · simp only [FindGradle, h1, h2]

lemma gradlePlan_projectDir (config : Config) (exe : String)
    (args : List String) (dir : String) (ebf esf : Bool × String)
    (so bo ro : Option String) (em : Bool) :
    gradlePlan config exe args (true, dir) ebf esf so bo ro em
      = (some { config := config, executable := exe, args := args,
                explicitProjectDir := dir }, []) := by
  rw [gradlePlan]
  simp

lemma gradlePlan_explicitBuild (config : Config) (exe : String)
    (args : List String) (path : String) (esf : Bool × String)
    (so bo ro : Option String) (em : Bool) :
    gradlePlan config exe args (false, "") (true, path) esf so bo ro em
      = (if esf.1 = true then
          (some { config := config, executable := exe, args := args,
                  explicitBuildFile := path,
                  explicitSettingsFile := esf.2 }, [])
         else
          (some { config := config, executable := exe, args := args,
                  explicitBuildFile := path,
                  settingsFile := so.getD "" }, [])) := by
  rw [gradlePlan]
  simp

lemma gradlePlan_discovery (config : Config) (exe : String)
    (args : List String) (esf : Bool × String) (so bo ro : Option String)
    (em : Bool) :
    gradlePlan config exe args (false, "") (false, "") esf so bo ro em
      = (if bo.isNone = true then
           if esf.1 = true then
             (some { config := config, executable := exe, args := args,
                     buildFile := bo.getD "",
                     rootBuildFile := if ro.isNone = true then bo.getD ""
                                      else ro.getD "",
                     explicitSettingsFile := esf.2 }, [])
           else if so.isSome = true then
             (some { config := config, executable := exe, args := args,
                     buildFile := bo.getD "",
                     rootBuildFile := if ro.isNone = true then bo.getD ""
                                      else ro.getD "",
                     settingsFile := so.getD "",
                     explicitSettingsFile := esf.2 }, [])
           else (none, if em = true then [(-1 : Int)] else [])
         else
           (some { config := config, executable := exe, args := args,
                   buildFile := bo.getD "",
                   rootBuildFile := if ro.isNone = true then bo.getD ""
                                    else ro.getD "",
                   settingsFile := so.getD "",
                   explicitSettingsFile := esf.2 }, [])) := by
  rw [gradlePlan]
  simp

/-! Claim C5 -/

/-- C5: for every invocation in which neither a wrapper executable nor a
system executable is found (in either tool family), the resolver records a
process exit with the non-zero status -1 and returns no plan when the context
is in explicit/strict mode, and returns no plan without any exit when not. -/
theorem C5_theorem (ctx : Context) (gargs margs : List String)
    (hw : resolveGradleWrapperExecutable ctx gargs = none)
    (hg : findGradleExec ctx = none)
    (hmw : findMavenWrapperExec ctx ctx.workingDir = none)
    (hm : findMavenExec ctx = none) :
    (ctx.explicitMode = true →
      FindGradle ctx gargs = (none, [-1]) ∧
      FindMaven ctx margs = (none, [-1]) ∧ (-1 : Int) ≠ 0) ∧
    (ctx.explicitMode = false →
      FindGradle ctx gargs = (none, []) ∧
      FindMaven ctx margs = (none, [])) := by
  constructor
  · intro hmode
    refine ⟨?_, ?_, by decide⟩
    · simp only [FindGradle, hw, hg, hmode, if_pos]
    · simp only [FindMaven, hmw, hm, hmode, if_pos]
  · intro hmode
    constructor
    · simp only [FindGradle, hw, hg, hmode]
      simp
    · simp only [FindMaven, hmw, hm, hmode]
      simp

/-- Concrete context for the C5 witness: no files at all, empty PATH,
explicit mode on. -/
def ctxC5 : Context :=
  { workingDir := ["w"]
  , fileExists := fun _ => false
  , paths := []
  , windows := false
  , explicitMode := true
  , quiet := true
  , readConfig := fun _ => {} }

/-- C5 witness: on the concrete empty context both resolvers record the exit
with status -1 and return no plan. -/
theorem C5_witness :
    (ctxC5.explicitMode = true →
      FindGradle ctxC5 [] = (none, [-1]) ∧
      FindMaven ctxC5 [] = (none, [-1]) ∧ (-1 : Int) ≠ 0) ∧
    (ctxC5.explicitMode = false →
      FindGradle ctxC5 [] = (none, []) ∧
      FindMaven ctxC5 [] = (none, [])) :=
  C5_theorem ctxC5 [] [] (by decide) (by decide) (by decide) (by decide)

/-! Claim C6 -/

/-- C6: for every argument list containing -p or --project-dir, the returned
plan has explicitProjectDir set to the given (absolutized) directory and every
other file-resolution field empty, no exit is recorded, the payload arguments
are kept unchanged, and executable resolution still ran normally: the plan
carries the wrapper executable when the wrapper walk found one, else the
system executable. -/
theorem C6_theorem (ctx : Context) (args : List String) (dir : String)
    (hpd : findExplicitProjectDir args = (true, dir))
    (hexe : resolveGradleWrapperExecutable ctx args ≠ none ∨
      findGradleExec ctx ≠ none) :
    ∃ c, (FindGradle ctx args).1 = some c ∧ (FindGradle ctx args).2 = [] ∧
      c.explicitProjectDir = dir ∧ c.buildFile = "" ∧ c.rootBuildFile = "" ∧
      c.settingsFile = "" ∧ c.explicitBuildFile = "" ∧
      c.explicitSettingsFile = "" ∧ c.args = args ∧
      c.executable = (match resolveGradleWrapperExecutable ctx args with
                      | some w => w
                      | none => (findGradleExec ctx).getD "") := by
  cases hW : resolveGradleWrapperExecutable ctx args with
  | some w =>
    obtain ⟨config, hFG⟩ := FindGradle_eq_gradlePlan ctx args w (Or.inl hW)
    rw [hFG, hpd, gradlePlan_projectDir]
    exact ⟨_, rfl, rfl, rfl, rfl, rfl, rfl, rfl, rfl, rfl, rfl⟩
  | none =>
    cases hG : findGradleExec ctx with
    | some g =>
      obtain ⟨config, hFG⟩ :=
        FindGradle_eq_gradlePlan ctx args g (Or.inr ⟨hW, hG⟩)
      rw [hFG, hpd, gradlePlan_projectDir]
      exact ⟨_, rfl, rfl, rfl, rfl, rfl, rfl, rfl, rfl, rfl, rfl⟩
    | none =>
      rcases hexe with h | h
      · exact absurd hW h
      · exact absurd hG h

/-- Concrete context for the C6 witness: the project directory p holds the
wrapper, the working directory is elsewhere. -/
def ctxC6 : Context :=
  { workingDir := ["w"]
  , fileExists := fun p => [["p", "gradlew"]].contains p
  , paths := []
  , windows := false
  , explicitMode := true
  , quiet := true
  , readConfig := fun _ => {} }

/-- C6 witness: the theorem evaluated at a concrete context and the argument
list [-p, /p, build]. -/
theorem C6_witness :
    ∃ c, (FindGradle ctxC6 ["-p", "/p", "build"]).1 = some c ∧
      (FindGradle ctxC6 ["-p", "/p", "build"]).2 = [] ∧
      c.explicitProjectDir = "/p" ∧ c.buildFile = "" ∧ c.rootBuildFile = "" ∧
      c.settingsFile = "" ∧ c.explicitBuildFile = "" ∧
      c.explicitSettingsFile = "" ∧ c.args = ["-p", "/p", "build"] ∧
      c.executable
        = (match resolveGradleWrapperExecutable ctxC6 ["-p", "/p", "build"] with
           | some w => w
           | none => (findGradleExec ctxC6).getD "") :=
  C6_theorem ctxC6 ["-p", "/p", "build"] "/p" (by decide)
    (Or.inl (by decide))

/-! Claim C7 -/

/-- C7: for every argument list containing -b with a value (and no explicit
project directory), the returned gradle-like plan has explicitBuildFile equal
to the absolutized value and empty discovered buildFile and rootBuildFile;
when no explicit settings file is given either, settings discovery still runs
and the plan carries the discovered settings file. -/
theorem C7_theorem (ctx : Context) (args : List String) (path : String)
    (hb : findExplicitGradleBuildFile args = (true, path))
    (hp : findExplicitProjectDir args = (false, ""))
    (hexe : resolveGradleWrapperExecutable ctx args ≠ none ∨
      findGradleExec ctx ≠ none) :
    ∃ c, (FindGradle ctx args).1 = some c ∧ c.explicitBuildFile = path ∧
      c.buildFile = "" ∧ c.rootBuildFile = "" ∧
      ((findExplicitGradleSettingsFile args).1 = false →
        c.settingsFile = (findGradleSettingsFile ctx ctx.workingDir).getD "") := by
  have main : ∀ exe,
      (resolveGradleWrapperExecutable ctx args = some exe ∨
        (resolveGradleWrapperExecutable ctx args = none ∧
          findGradleExec ctx = some exe)) →
      ∃ c, (FindGradle ctx args).1 = some c ∧ c.explicitBuildFile = path ∧
        c.buildFile = "" ∧ c.rootBuildFile = "" ∧
        ((findExplicitGradleSettingsFile args).1 = false →
          c.settingsFile = (findGradleSettingsFile ctx ctx.workingDir).getD "") := by
    intro exe hcase
    obtain ⟨config, hFG⟩ := FindGradle_eq_gradlePlan ctx args exe hcase
    rw [hFG, hp, hb, gradlePlan_explicitBuild]
    by_cases hesf : (findExplicitGradleSettingsFile args).1 = true
    · rw [if_pos hesf]
      exact ⟨_, rfl, rfl, rfl, rfl, fun hf => absurd hesf (by simp [hf])⟩
    · rw [if_neg hesf]
      exact ⟨_, rfl, rfl, rfl, rfl, fun _ => rfl⟩
  cases hW : resolveGradleWrapperExecutable ctx args with
  | some w => exact main w (Or.inl hW)
  | none =>
    cases hG : findGradleExec ctx with
    | some g => exact main g (Or.inr ⟨hW, hG⟩)
    | none =>
      rcases hexe with h | h
      · exact absurd hW h
      · exact absurd hG h

/-- Concrete context for the C7 witness: wrapper and settings file live in
the working directory w. -/
def ctxC7 : Context :=
  { workingDir := ["w"]
  , fileExists := fun p =>
      [["w", "gradlew"], ["w", "settings.gradle"]].contains p
  , paths := []
  , windows := false
  , explicitMode := true
  , quiet := true
  , readConfig := fun _ => {} }

/-- C7 witness: the theorem evaluated at a concrete context and the argument
list [-b, /w/x.gradle]. -/
theorem C7_witness :
    ∃ c, (FindGradle ctxC7 ["-b", "/w/x.gradle"]).1 = some c ∧
      c.explicitBuildFile = "/w/x.gradle" ∧
      c.buildFile = "" ∧ c.rootBuildFile = "" ∧
      ((findExplicitGradleSettingsFile ["-b", "/w/x.gradle"]).1 = false →
        c.settingsFile
          = (findGradleSettingsFile ctxC7 ctxC7.workingDir).getD "") :=
  C7_theorem ctxC7 ["-b", "/w/x.gradle"] "/w/x.gradle" (by decide) (by decide)
    (Or.inl (by decide))

/-! Claim C10 -/

lemma FindMaven_eq_mavenPlan (ctx : Context) (args : List String)
    (exe : String)
    (h : findMavenWrapperExec ctx ctx.workingDir = some exe ∨
      (findMavenWrapperExec ctx ctx.workingDir = none ∧
        findMavenExec ctx = some exe)) :
    FindMaven ctx args
      = mavenPlan exe args (findExplicitMavenBuildFile args)
          (findMavenBuildFile ctx ctx.workingDir)
          (findMavenRootFile ctx ctx.workingDir.dropLast)
          ctx.explicitMode := by
  rcases h with h | ⟨h1, h2⟩
  · simp only [FindMaven, h]
  · simp only [FindMaven, h1, h2]

lemma mavenPlan_discovery (exe : String) (args : List String)
    (bo ro : Option String) (em : Bool) :
    mavenPlan exe args (false, "") bo ro em
      = (if bo.isNone = true then
           (none, if em = true then [(-1 : Int)] else [])
         else
           (some { executable := exe, args := args,
                   rootBuildFile := if ro.isNone = true then bo.getD ""
                                    else ro.getD "",
                   buildFile := bo.getD "" }, [])) := by
  rw [mavenPlan]
  simp

lemma rootFile_some_build_ne_none {ctx : Context} {sf : String} {r : String}
    (h : findGradleRootFile ctx ctx.workingDir.dropLast sf = some r) :
    findGradleBuildFile ctx ctx.workingDir ≠ none := by
  obtain ⟨d, n, hd1, hd2, hd3, hd4, _, _, _⟩ := findGradleRootFile_some_spec h
  have hpre : d <+: ctx.workingDir :=
    hd2.trans (List.dropLast_prefix ctx.workingDir)
  have hmem : n ∈ gradleBuildFileNames d := by
    rcases hd3 with rfl | rfl <;> simp [gradleBuildFileNames]
  exact upwardSearch_ne_none hd1 hpre hmem hd4

/-- C10: in discovery mode (no explicit project directory and no explicit
build file), whenever the root build file search fails but a plan is
returned, the rootBuildFile of the plan equals its (nearest) buildFile; and
every discovery-mode plan has a non-empty rootBuildFile exactly when it has a
non-empty buildFile. The same holds for the maven-like family. -/
theorem C10_theorem (ctx : Context) (gargs margs : List String)
    (c : GradleCommand) (m : MavenCommand)
    (hp : findExplicitProjectDir gargs = (false, ""))
    (hb : findExplicitGradleBuildFile gargs = (false, ""))
    (hplan : (FindGradle ctx gargs).1 = some c)
    (hmb : findExplicitMavenBuildFile margs = (false, ""))
    (hmplan : (FindMaven ctx margs).1 = some m) :
    ((findGradleRootFile ctx ctx.workingDir.dropLast
        ((findGradleSettingsFile ctx ctx.workingDir).getD "") = none →
      c.rootBuildFile = c.buildFile) ∧
     (c.rootBuildFile ≠ "" ↔ c.buildFile ≠ "")) ∧
    ((findMavenRootFile ctx ctx.workingDir.dropLast = none →
      m.rootBuildFile = m.buildFile) ∧
     (m.rootBuildFile ≠ "" ↔ m.buildFile ≠ "")) := by
  constructor
  · -- gradle-like family
    have main : ∀ exe,
        (resolveGradleWrapperExecutable ctx gargs = some exe ∨
          (resolveGradleWrapperExecutable ctx gargs = none ∧
            findGradleExec ctx = some exe)) →
        ((findGradleRootFile ctx ctx.workingDir.dropLast
            ((findGradleSettingsFile ctx ctx.workingDir).getD "") = none →
          c.rootBuildFile = c.buildFile) ∧
         (c.rootBuildFile ≠ "" ↔ c.buildFile ≠ "")) := by
      intro exe hcase
      obtain ⟨config, hFG⟩ := FindGradle_eq_gradlePlan ctx gargs exe hcase
      rw [hFG, hp, hb] at hplan
      have hifsf : (if (((false, "") : Bool × String)).1 = true
          then (((false, "") : Bool × String)).2
          else (findGradleSettingsFile ctx ctx.workingDir).getD "")
          = (findGradleSettingsFile ctx ctx.workingDir).getD "" := rfl
      rw [hifsf, gradlePlan_discovery] at hplan
      cases hbo : findGradleBuildFile ctx ctx.workingDir with
      | some b =>
        rw [hbo] at hplan
        simp only [Option.isNone_some, Bool.false_eq_true, if_false,
          Option.getD_some] at hplan
        have hc := Option.some.inj hplan
        subst hc
        have hbne : b ≠ "" := upwardSearch_some_ne_empty hbo
        constructor
        · intro hroot
          simp only [hroot, Option.isNone_none, if_pos]
        · cases hro : findGradleRootFile ctx ctx.workingDir.dropLast
              ((findGradleSettingsFile ctx ctx.workingDir).getD "") with
          | none => simp [hro, hbne]
          | some r =>
            have hrne : r ≠ "" := by
              obtain ⟨d, n, _, _, _, _, hs, _, _⟩ :=
                findGradleRootFile_some_spec hro
              rw [hs]
              exact renderPath_ne_empty _
            simp [hro, hbne, hrne]
      | none =>
        have hro : findGradleRootFile ctx ctx.workingDir.dropLast
            ((findGradleSettingsFile ctx ctx.workingDir).getD "") = none := by
          cases hro : findGradleRootFile ctx ctx.workingDir.dropLast
              ((findGradleSettingsFile ctx ctx.workingDir).getD "") with
          | none => rfl
          | some r => exact absurd hbo (rootFile_some_build_ne_none hro)
        rw [hbo, hro] at hplan
        simp only [Option.isNone_none, if_pos, Option.getD_none] at hplan
        by_cases hesf : (findExplicitGradleSettingsFile gargs).1 = true
        · rw [if_pos hesf] at hplan
          have hc := Option.some.inj hplan
          subst hc
          constructor
          · intro _; rfl
          · exact Iff.rfl
        · rw [if_neg hesf] at hplan
          by_cases hso : (findGradleSettingsFile ctx ctx.workingDir).isSome = true
          · rw [if_pos hso] at hplan
            have hc := Option.some.inj hplan
            subst hc
            constructor
            · intro _; rfl
            · exact Iff.rfl
          · rw [if_neg hso] at hplan
            exact absurd hplan (by simp)
    cases hW : resolveGradleWrapperExecutable ctx gargs with
    | some w => exact main w (Or.inl hW)
    | none =>
      cases hG : findGradleExec ctx with
      | some g => exact main g (Or.inr ⟨hW, hG⟩)
      | none =>
        rw [show FindGradle ctx gargs
          = (none, if ctx.explicitMode = true then [(-1 : Int)] else [])
          from by simp only [FindGradle, hW, hG]] at hplan
        exact absurd hplan (by simp)
  · -- maven-like family
    have main : ∀ exe,
        (findMavenWrapperExec ctx ctx.workingDir = some exe ∨
          (findMavenWrapperExec ctx ctx.workingDir = none ∧
            findMavenExec ctx = some exe)) →
        ((findMavenRootFile ctx ctx.workingDir.dropLast = none →
          m.rootBuildFile = m.buildFile) ∧
         (m.rootBuildFile ≠ "" ↔ m.buildFile ≠ "")) := by
      intro exe hcase
      rw [FindMaven_eq_mavenPlan ctx margs exe hcase, hmb,
        mavenPlan_discovery] at hmplan
      cases hbo : findMavenBuildFile ctx ctx.workingDir with
      | some b =>
        rw [hbo] at hmplan
        simp only [Option.isNone_some, Bool.false_eq_true, if_false,
          Option.getD_some] at hmplan
        have hc := Option.some.inj hmplan
        subst hc
        have hbne : b ≠ "" := upwardSearch_some_ne_empty hbo
        constructor
        · intro hroot
          simp only [hroot, Option.isNone_none, if_pos]
        · cases hro : findMavenRootFile ctx ctx.workingDir.dropLast with
          | none => simp [hro, hbne]
          | some r =>
            have hrne : r ≠ "" := upwardSearch_some_ne_empty hro
            simp [hro, hbne, hrne]
      | none =>
        rw [hbo] at hmplan
        simp only [Option.isNone_none, if_pos] at hmplan
        exact absurd hmplan (by simp)
    cases hW : findMavenWrapperExec ctx ctx.workingDir with
    | some w => exact main w (Or.inl hW)
    | none =>
      cases hG : findMavenExec ctx with
      | some g => exact main g (Or.inr ⟨hW, hG⟩)
      | none =>
        rw [show FindMaven ctx margs
          = (none, if ctx.explicitMode = true then [(-1 : Int)] else [])
          from by simp only [FindMaven, hW, hG]] at hmplan
        exact absurd hmplan (by simp)

/-- Concrete context for the C10 witness: the working directory holds the
gradle wrapper, build and settings files, the maven wrapper and pom.xml; the
root searches (started at the parent, which is the filesystem root) fail. -/
def ctxC10 : Context :=
  { workingDir := ["w"]
  , fileExists := fun p =>
      [["w", "gradlew"], ["w", "build.gradle"], ["w", "settings.gradle"],
       ["w", "mvnw"], ["w", "pom.xml"]].contains p
  , paths := []
  , windows := false
  , explicitMode := true
  , quiet := true
  , readConfig := fun _ => {} }

/-- The gradle plan of the C10 witness context. -/
def gplanC10 : GradleCommand :=
  ((FindGradle ctxC10 []).1).getD
    { config := {}, executable := "", args := [] }

/-- The maven plan of the C10 witness context. -/
def mplanC10 : MavenCommand :=
  ((FindMaven ctxC10 []).1).getD { executable := "", args := [] }

/-- C10 witness: the theorem evaluated on the concrete context, whose root
searches fail and whose plans carry the nearest build file in both fields. -/
theorem C10_witness :
    ((findGradleRootFile ctxC10 ctxC10.workingDir.dropLast
        ((findGradleSettingsFile ctxC10 ctxC10.workingDir).getD "") = none →
      gplanC10.rootBuildFile = gplanC10.buildFile) ∧
     (gplanC10.rootBuildFile ≠ "" ↔ gplanC10.buildFile ≠ "")) ∧
    ((findMavenRootFile ctxC10 ctxC10.workingDir.dropLast = none →
      mplanC10.rootBuildFile = mplanC10.buildFile) ∧
     (mplanC10.rootBuildFile ≠ "" ↔ mplanC10.buildFile ≠ "")) :=
  C10_theorem ctxC10 [] [] gplanC10 mplanC10 (by decide) (by decide) rfl
    (by decide) rfl

end Gum
